import Mathlib

/-!
Shallow embedding of the terminal_messenger chat server core
(src/server/app.rs, src/server/websocket.rs, src/server/commander.rs and
crates/server/src/{app,commander}.rs), together with theorems settling the
specification claims about it.

Rust `HashMap<String, V>` values are embedded as association lists
`List (String × V)` with unique keys; `HashMap::insert` replaces the value
at an existing key in place, `remove` deletes the entry, `get` returns the
first binding.  `VecDeque` is a `List` (front = head).  An mpsc unbounded
sender is embedded as a `Chan`: a flag saying whether the receiving half is
still alive plus the queue of messages enqueued so far; `send` on a closed
channel returns an error, which callers either propagate, ignore, or
`unwrap` (a panic, embedded as `Option.none`).

Wall-clock data (`SystemTime` in `UserInfo.connection_time`) and the cosmetic
`color` field are outside the embedding; no claim mentions them.
-/

namespace TerminalMessenger

/-- Rust `HashMap::get` on a string-keyed map: first binding for the key. -/
def mapLookup {β : Type} (k : String) : List (String × β) → Option β
  | [] => none
  | (k', v) :: rest => if k' = k then some v else mapLookup k rest

/-- Rust `HashMap::insert`: replace the value at an existing key, else add a binding. -/
def mapInsert {β : Type} (k : String) (v : β) : List (String × β) → List (String × β)
  | [] => [(k, v)]
  | (k', v') :: rest => if k' = k then (k, v) :: rest else (k', v') :: mapInsert k v rest

/-- Rust `HashMap::remove`: delete the binding for the key. -/
def mapRemove {β : Type} (k : String) : List (String × β) → List (String × β)
  | [] => []
  | (k', v') :: rest => if k' = k then rest else (k', v') :: mapRemove k rest

/-- The wire envelope: `enum MessageType` from `app.rs`. -/
inductive MessageType where
  | ChatMessage (sender : String) (content : String)
  | Command (name : String) (args : List String)
  | SystemMessage (s : String)
deriving DecidableEq

/-- Rust `struct UserInfo` from `app.rs` (wall-clock `connection_time` and the
cosmetic `color` field are outside the embedding). -/
structure UserInfo where
  username : String
  message_count : Nat
deriving DecidableEq

/-- Rust `struct UserCredentials` from `crates/server/src/app.rs`. -/
structure UserCredentials where
  username : String
  password : String
deriving DecidableEq

/-- Rust `struct App` from `app.rs`: connected users keyed by connection id,
bounded message history, and the seeded credential store. -/
structure App where
  connected_users : List (String × UserInfo)
  message_history : List MessageType
  user_credentials : List (String × UserCredentials)
deriving DecidableEq

namespace App

/-- Constructor `App::new` from `crates/server/src/app.rs`: empty state seeded with the
two demo credential records. -/
def new : App :=
  { connected_users := []
    message_history := []
    user_credentials :=
      [ ("user1", { username := "user1", password := "password1" }),
        ("user2", { username := "user2", password := "password2" }) ] }

/-- Verifier `App::authenticate_user` from `crates/server/src/app.rs`: plaintext
equality against the stored record for the username, false if unknown. -/
def authenticate_user (app : App) (username password : String) : Bool :=
  match mapLookup username app.user_credentials with
  | some credentials => credentials.password = password
  | none => false

/-- Method `App::add_connected_user`: insert a fresh `UserInfo` under the id. -/
def add_connected_user (app : App) (user_id username : String) : App :=
  { app with connected_users :=
      mapInsert user_id { username := username, message_count := 0 } app.connected_users }

/-- Method `App::get_connected_user`: lookup by id. -/
def get_connected_user (app : App) (user_id : String) : Option UserInfo :=
  mapLookup user_id app.connected_users

/-- Method `App::remove_connected_user` (this caller discards the returned handle). -/
def remove_connected_user (app : App) (user_id : String) : App :=
  { app with connected_users := mapRemove user_id app.connected_users }

/-- Method `App::get_connected_users`: all `UserInfo` values. -/
def get_connected_users (app : App) : List UserInfo :=
  app.connected_users.map Prod.snd

/-- Method `App::update_username`: mutate the username field if the id is present. -/
def update_username (app : App) (user_id username : String) : App :=
  match mapLookup user_id app.connected_users with
  | some user_info =>
      { app with connected_users :=
          mapInsert user_id { user_info with username := username } app.connected_users }
  | none => app

/-- Method `App::add_message_to_history`: when the history already holds 100
messages, pop the oldest from the front, then push at the back. -/
def add_message_to_history (app : App) (message : MessageType) : App :=
  let h := app.message_history
  { app with message_history :=
      if h.length = 100 then h.drop 1 ++ [message] else h ++ [message] }

/-- Method `App::get_message_history`: snapshot, oldest first. -/
def get_message_history (app : App) : List MessageType :=
  app.message_history

end App

/-- An mpsc unbounded sender endpoint: whether the receiving half is still
alive, and the queue of messages enqueued so far (FIFO, oldest first). -/
structure Chan (α : Type) where
  isOpen : Bool
  queue : List α
deriving DecidableEq

/-- Channel `UnboundedSender::send`: enqueue, or fail if the receiver was dropped. -/
def Chan.send {α : Type} (c : Chan α) (m : α) : Option (Chan α) :=
  if c.isOpen then some { c with queue := c.queue ++ [m] } else none

/-! Rust string primitives, embedded over character lists (the protocol
strings are ASCII, so Rust's byte positions coincide with character
positions); Lean core's own `String.splitOn`/`trim` are avoided because
they do not reduce inside the kernel. -/

/-- Split a character list at the first occurrence of `sep`: the part
before it and the part after it, or `none` when `sep` does not occur. -/
def splitFirstAux (sep : Char) : List Char → Option (List Char × List Char)
  | [] => none
  | c :: rest =>
      if c = sep then some ([], rest)
      else (splitFirstAux sep rest).map fun p => (c :: p.1, p.2)

/-- Split a string at the first occurrence of `sep`. -/
def splitFirst (sep : Char) (s : String) : Option (String × String) :=
  (splitFirstAux sep s.toList).map fun p => (String.mk p.1, String.mk p.2)

/-- Rust `str::splitn(2, sep)`: the whole string when `sep` is absent,
otherwise the parts before and after its first occurrence. -/
def splitn_two (sep : Char) (s : String) : List String :=
  match splitFirst sep s with
  | none => [s]
  | some (a, b) => [a, b]

/-- Rust `str::trim`: strip leading and trailing whitespace. -/
def str_trim (s : String) : String :=
  String.mk (((s.toList.dropWhile Char.isWhitespace).reverse.dropWhile
    Char.isWhitespace).reverse)

/-- Rust `str::starts_with`. -/
def str_starts_with (s pre : String) : Bool :=
  decide (s.toList.take pre.toList.length = pre.toList)

/-- Rust byte slicing `s[n..]`. -/
def str_drop (n : Nat) (s : String) : String :=
  String.mk (s.toList.drop n)

/-- Rust `Vec::join` on strings. -/
def join_with (sep : String) : List String → String
  | [] => ""
  | [x] => x
  | x :: y :: rest => x ++ sep ++ join_with sep (y :: rest)

/-- The broadcast loop in `handle_incoming_message` (ChatMessage arm): send
the message to every client; a client whose send fails is collected in
`disconnected_clients` and removed from the map afterwards. -/
def fan_out_and_prune (clients : List (String × Chan MessageType)) (m : MessageType) :
    List (String × Chan MessageType) :=
  clients.filterMap fun p =>
    match p.2.send m with
    | some c' => some (p.1, c')
    | none => none

/-- The broadcast loop in `handle_disconnection`: `let _ = tx.send(...)`,
errors ignored, no client removed. -/
def broadcast_best_effort (clients : List (String × Chan MessageType)) (m : MessageType) :
    List (String × Chan MessageType) :=
  clients.map fun p =>
    match p.2.send m with
    | some c' => (p.1, c')
    | none => p

/-- Replay send `tx_original.send(message).unwrap()` during the history replay in
`handle_connection`: append to the entry for `id`.  The freshly created
unbounded channel cannot be closed at this point, so the send succeeds. -/
def enqueue_to (id : String) :
    List (String × Chan MessageType) → MessageType → List (String × Chan MessageType)
  | [], _ => []
  | (k', c) :: rest, m =>
      if k' = id then (k', { c with queue := c.queue ++ [m] }) :: enqueue_to id rest m
      else (k', c) :: enqueue_to id rest m

/-- Function `handle_connection` lines 62-79 of `src/server/websocket.rs`, the part
executed as soon as the websocket handshake completes: create the client's
channel, insert it into `clients`, add the user to the `App` under the
default name "Anonymous", then replay the message history snapshot onto the
new client's channel.  No authentication happens on this path. -/
def handle_connection_setup (client_id : String)
    (clients : List (String × Chan MessageType)) (app : App) :
    List (String × Chan MessageType) × App :=
  let clients1 := mapInsert client_id { isOpen := true, queue := [] } clients
  let app1 := app.add_connected_user client_id "Anonymous"
  let history := app1.get_message_history
  let clients2 := history.foldl (enqueue_to client_id) clients1
  (clients2, app1)

/-- Dispatcher `command_handler::handle_command` from `crates/server/src/commander.rs`
(the dispatcher `handle_incoming_message` calls): `name`, `list`, and the
unknown-command fallback.  `none` embeds a panic (`unwrap` of a missing
map entry or of a failed send). -/
def handle_command (command_name : String) (args : List String) (client_id : String)
    (clients : List (String × Chan MessageType)) (app : App) :
    Option (List (String × Chan MessageType) × App) :=
  if command_name = "name" then
    match args.head? with
    | some new_name =>
        let app1 := app.update_username client_id new_name
        let system_message :=
          MessageType.SystemMessage ("Your name is now set to \x27" ++ new_name ++ "\x27")
        match mapLookup client_id clients with
        | none => none
        | some c =>
            match c.send system_message with
            | none => none
            | some c' => some (mapInsert client_id c' clients, app1)
    | none => some (clients, app)
  else if command_name = "list" then
    let names := (app.get_connected_users).map UserInfo.username
    let names_string := join_with ", " names
    let system_message := MessageType.SystemMessage ("Connected users: " ++ names_string)
    match mapLookup client_id clients with
    | none => some (clients, app)
    | some c =>
        match c.send system_message with
        | none => none
        | some c' => some (mapInsert client_id c' clients, app)
  else
    let system_message :=
      MessageType.SystemMessage "Unknown command. Type /help for a list of commands."
    match mapLookup client_id clients with
    | none => some (clients, app)
    | some c =>
        match c.send system_message with
        | none => none
        | some c' => some (mapInsert client_id c' clients, app)

/-- Function `handle_incoming_message` from `src/server/websocket.rs`: rewrite an
incoming ChatMessage's sender to the stored username (the client-supplied
value is ignored), append it to the history, broadcast it to every client
pruning the ones whose send fails; dispatch Commands; log-and-drop
SystemMessages.  `none` embeds the `get_connected_user(..).unwrap()` panic. -/
def handle_incoming_message (message : MessageType) (client_id : String)
    (clients : List (String × Chan MessageType)) (app : App) :
    Option (List (String × Chan MessageType) × App) :=
  match message with
  | MessageType.ChatMessage _ content =>
      match app.get_connected_user client_id with
      | none => none
      | some user_info =>
          let broadcast_message := MessageType.ChatMessage user_info.username content
          let app1 := app.add_message_to_history broadcast_message
          some (fan_out_and_prune clients broadcast_message, app1)
  | MessageType.Command name args => handle_command name args client_id clients app
  | MessageType.SystemMessage _ => some (clients, app)

/-- Function `handle_disconnection` from `src/server/websocket.rs`: if the
disconnect-once flag is already set, return unchanged; otherwise set it,
read the username (`get_connected_user(..).unwrap()` — a registry miss
panics, embedded as `none`), remove the user from the `App` and the client
from `clients`, then broadcast "<username> has disconnected." to the
remaining clients, ignoring send errors.  Returns the new flag, clients
map and app. -/
def handle_disconnection (disconnect_handled : Bool) (client_id : String)
    (clients : List (String × Chan MessageType)) (app : App) :
    Option (Bool × List (String × Chan MessageType) × App) :=
  if disconnect_handled then some (disconnect_handled, clients, app)
  else
    match app.get_connected_user client_id with
    | none => none
    | some user_info =>
        let client_name := user_info.username
        let app1 := app.remove_connected_user client_id
        let clients1 := mapRemove client_id clients
        let disconnect_message :=
          MessageType.SystemMessage (client_name ++ " has disconnected.")
        some (true, broadcast_best_effort clients1 disconnect_message, app1)

/-! The string-based command dispatcher of `src/server/commander.rs`, whose
`clients` map is `HashMap<String, (Option<String>, mpsc::UnboundedSender<String>)>`:
each entry carries the optional nickname and a channel of plain strings. -/

/-- Helper `command_handler::send_to_client` from `src/server/commander.rs`:
`if let Some` on the lookup (a miss is a silent no-op), then
`tx.send(message).unwrap()` (a failed send panics, embedded as `none`). -/
def str_send_to_client (client_id : String)
    (clients : List (String × (Option String × Chan String))) (message : String) :
    Option (List (String × (Option String × Chan String))) :=
  match mapLookup client_id clients with
  | none => some clients
  | some (name, c) =>
      match c.send message with
      | none => none
      | some c' => some (mapInsert client_id (name, c') clients)

/-- The `/help` reply text of `src/server/commander.rs`. -/
def str_help_text : String :=
  "\n            /help - Show available commands\n            /name <your_name> - Set your nickname\n            /list - List all connected users\n            /dm <name> <message> - Send a private message to the user with the specified name\n            "

/-- The `name` arm of `command_handler::handle_command` from
`src/server/commander.rs` (lines 29-65), taking `cmd[4..]` as `name_arg`:
trim it; an empty result is rejected with "Please provide a valid name.";
otherwise the existing channel is looked up (`unwrap` — a miss panics,
embedded as `none`), the nickname in `clients` is replaced, a fresh
`UserInfo` is inserted into the `App` via `add_connected_user`, and
"Your name is now set to \x27<name>\x27" is sent back. -/
def str_name_branch (name_arg : String) (client_id : String)
    (clients : List (String × (Option String × Chan String))) (app : App) :
    Option (List (String × (Option String × Chan String)) × App) :=
  let name := str_trim name_arg
  if name = "" then
    (str_send_to_client client_id clients "Please provide a valid name.").map
      fun cs => (cs, app)
  else
    match mapLookup client_id clients with
    | none => none
    | some old_data =>
        let clients1 := mapInsert client_id (some name, old_data.2) clients
        let app1 := app.add_connected_user client_id name
        (str_send_to_client client_id clients1
          ("Your name is now set to \x27" ++ name ++ "\x27")).map fun cs => (cs, app1)

/-- Dispatcher `command_handler::handle_command` from `src/server/commander.rs`: strip
the leading "/", then dispatch on `help`, a command starting with `name`, a
command starting with `dm`, `list`, or the unknown-command fallback; a
command without the leading slash also falls to the fallback
(`strip_prefix` returns `None` there).  In the `name` branch the lookup of
the existing channel is `unwrap`ped (panic on a miss, embedded as `none`).
The `dm` branch sends the recipient
"(Private message from <recipient>): <content>" — the source interpolates
`recipient_name`, not the sender's name — and echoes
"(Private message to <recipient>): <content>" to the sender.
(The source's `list` arm assigns `get_connected_users()` to a
`Vec<String>`; it is embedded as the connected users' usernames.) -/
def str_handle_command (command : String) (client_id : String)
    (clients : List (String × (Option String × Chan String))) (app : App) :
    Option (List (String × (Option String × Chan String)) × App) :=
  if str_starts_with command "/" then
    let cmd := str_drop 1 command
    if cmd = "help" then
      (str_send_to_client client_id clients str_help_text).map fun cs => (cs, app)
    else if str_starts_with cmd "name" then
      str_name_branch (str_drop 4 cmd) client_id clients app
    else if cmd = "list" then
      let list_of_clients := (app.get_connected_users).map UserInfo.username
      let names := join_with ", " list_of_clients
      (str_send_to_client client_id clients ("Connected users: " ++ names)).map
        fun cs => (cs, app)
    else if str_starts_with cmd "dm" then
      match splitn_two ' ' (str_trim (str_drop 2 cmd)) with
      | [recipient_name, message] =>
          let recipient := clients.find? fun p => p.2.1 == some recipient_name
          match recipient with
          | some (rid, rname, rch) =>
              match rch.send ("(Private message from " ++ recipient_name ++ "): " ++ message) with
              | none => none
              | some rch' =>
                  let clients1 := mapInsert rid (rname, rch') clients
                  (str_send_to_client client_id clients1
                    ("(Private message to " ++ recipient_name ++ "): " ++ message)).map
                    fun cs => (cs, app)
          | none =>
              (str_send_to_client client_id clients
                ("User \x27" ++ recipient_name ++ "\x27 not found.")).map fun cs => (cs, app)
      | _ =>
          (str_send_to_client client_id clients "Usage: /whisper <name> <message>").map
            fun cs => (cs, app)
    else
      (str_send_to_client client_id clients
        "Unknown command. Type /help for a list of commands.").map fun cs => (cs, app)
  else
    (str_send_to_client client_id clients
      "Unknown command. Type /help for a list of commands.").map fun cs => (cs, app)

/-! Authentication sub-protocol.  The per-session server loop that consumes
credential SystemMessages is not among the sources: `src/server/websocket.rs`
only logs SystemMessages, and `crates/server/src/` contains the verifier
`App::authenticate_user` and the dispatcher but not the session loop (the
reference client in `crates/client/src/app.rs` mirrors it).  It is modelled
from the spec below. -/

/-- Modelled from the spec: the credential payload is
`"<username>:<password>"`, split at the *first* colon; username and
password must each be non-empty (§4.5 step 2).  The session loop that
parses it is missing from the sources. -/
def parse_credentials (payload : String) : Option (String × String) :=
  match splitFirst ':' payload with
  | none => none
  | some (u, p) => if u = "" ∨ p = "" then none else some (u, p)

/-- Whether a credential payload verifies against the store: parse, then
`App::authenticate_user` (from `crates/server/src/app.rs`). -/
def verifies (app : App) (payload : String) : Bool :=
  match parse_credentials payload with
  | some (u, p) => app.authenticate_user u p
  | none => false

/-- One observable step of the authentication loop. -/
structure AuthStep where
  replies : List MessageType
  authenticated : Option String
  failures : Nat
  closed : Bool
deriving DecidableEq

/-- Modelled from the spec: one round of the AwaitingCredentials loop
(§4.5 steps 3-4), which is missing from the sources.  On verify success:
reply "Authentication successful", set the username, reset the failure
count, replay the history snapshot.  On verify failure: increment the
count, reply "Authentication failed. <5 − failures> attempts remaining.";
if the incremented count reaches 5, also send
"Max login attempts reached. Connection closed." and close the transport. -/
def auth_step (app : App) (failures : Nat) (payload : String) : AuthStep :=
  match parse_credentials payload with
  | some (u, p) =>
      if app.authenticate_user u p then
        { replies := MessageType.SystemMessage "Authentication successful"
            :: app.get_message_history
          authenticated := some u
          failures := 0
          closed := false }
      else auth_fail failures
  | none => auth_fail failures
where
  /-- The failure reply of one round: shared by a malformed payload and a
  payload whose credentials do not verify. -/
  auth_fail (failures : Nat) : AuthStep :=
    let failures1 := failures + 1
    let fail_reply := MessageType.SystemMessage
      ("Authentication failed. " ++ toString (5 - failures1) ++ " attempts remaining.")
    if 5 ≤ failures1 then
      { replies := [fail_reply,
          MessageType.SystemMessage "Max login attempts reached. Connection closed."]
        authenticated := none
        failures := failures1
        closed := true }
    else
      { replies := [fail_reply]
        authenticated := none
        failures := failures1
        closed := false }

/-! Keep-alive constants of the ping task in `handle_connection`
(`src/server/websocket.rs` lines 96-133). -/

/-- Constant `Duration::from_secs(30)` passed to `tokio::time::interval`. -/
def ping_interval_secs : Nat := 30

/-- Constant `Duration::from_secs(10)`: how long the ping task waits for a Pong. -/
def pong_timeout_secs : Nat := 10

/-- The time (seconds after the ping task starts) at which the k-th
`Message::Ping(vec![])` is sent: `tokio::time::interval` completes its
first tick immediately, so tick k fires at `30 * k` — at 0, 30, 60, …
(assuming each Pong arrives within the 10-second window, so the loop is
never left). -/
def ping_tick_time (k : Nat) : Nat := ping_interval_secs * k

/-! Lemmas about the map and channel operations. -/

theorem mapLookup_mapInsert_self {β : Type} (k : String) (v : β) (l : List (String × β)) :
    mapLookup k (mapInsert k v l) = some v := by
  induction l with
  | nil => simp [mapInsert, mapLookup]
  | cons p rest ih =>
      obtain ⟨k', v'⟩ := p
      by_cases h : k' = k
      · simp [mapInsert, mapLookup, h]
      · simp [mapInsert, mapLookup, h, ih]

theorem mapLookup_mapRemove_ne {β : Type} {j k : String} (h : j ≠ k) (l : List (String × β)) :
    mapLookup j (mapRemove k l) = mapLookup j l := by
  induction l with
  | nil => simp [mapRemove, mapLookup]
  | cons p rest ih =>
      obtain ⟨k', v'⟩ := p
      by_cases hk : k' = k
      · subst hk
        have hj : k' ≠ j := fun e => h e.symm
        simp [mapRemove, mapLookup, hj]
      · by_cases hj : k' = j
        · subst hj
          simp [mapRemove, mapLookup, hk]
        · simp [mapRemove, mapLookup, hk, hj, ih]

theorem mapLookup_of_not_mem_keys {β : Type} {j : String} {l : List (String × β)}
    (h : j ∉ l.map Prod.fst) : mapLookup j l = none := by
  induction l with
  | nil => simp [mapLookup]
  | cons p rest ih =>
      obtain ⟨k', v'⟩ := p
      simp only [List.map_cons, List.mem_cons, not_or] at h
      have hkj : k' ≠ j := fun e => h.1 e.symm
      simp [mapLookup, hkj, ih h.2]

theorem mapLookup_mapRemove_self_of_nodup {β : Type} {k : String} {l : List (String × β)}
    (hnd : (l.map Prod.fst).Nodup) : mapLookup k (mapRemove k l) = none := by
  induction l with
  | nil => simp [mapRemove, mapLookup]
  | cons p rest ih =>
      obtain ⟨k', v'⟩ := p
      simp only [List.map_cons, List.nodup_cons] at hnd
      by_cases hk : k' = k
      · subst hk
        simp only [mapRemove, if_pos rfl]
        exact mapLookup_of_not_mem_keys hnd.1
      · simp [mapRemove, mapLookup, hk, ih hnd.2]

theorem mapLookup_mem_values {β : Type} {j : String} {v : β} {l : List (String × β)}
    (h : mapLookup j l = some v) : v ∈ l.map Prod.snd := by
  induction l with
  | nil => simp [mapLookup] at h
  | cons p rest ih =>
      obtain ⟨k', v'⟩ := p
      by_cases hk : k' = j
      · simp only [mapLookup, if_pos hk, Option.some.injEq] at h
        simp [h]
      · simp only [mapLookup, if_neg hk] at h
        simp [ih h]

/-- The effect of one best-effort broadcast on a single entry: the message
is appended when the channel is open, the entry is kept as-is otherwise. -/
def send_or_keep (m : MessageType) (c : Chan MessageType) : Chan MessageType :=
  match c.send m with
  | some c' => c'
  | none => c

theorem mapLookup_broadcast_best_effort (j : String)
    (l : List (String × Chan MessageType)) (m : MessageType) :
    mapLookup j (broadcast_best_effort l m) = (mapLookup j l).map (send_or_keep m) := by
  induction l with
  | nil => simp [broadcast_best_effort, mapLookup]
  | cons p rest ih =>
      obtain ⟨k', c⟩ := p
      by_cases hk : k' = j
      · cases hs : c.send m <;>
          simp [broadcast_best_effort, mapLookup, hk, send_or_keep, hs]
      · cases hs : c.send m <;>
          simp [broadcast_best_effort, mapLookup, hk, hs] <;> exact ih

theorem mapLookup_enqueue_to_self (id : String)
    (l : List (String × Chan MessageType)) (m : MessageType) :
    mapLookup id (enqueue_to id l m)
      = (mapLookup id l).map fun c => { isOpen := c.isOpen, queue := c.queue ++ [m] } := by
  induction l with
  | nil => simp [enqueue_to, mapLookup]
  | cons p rest ih =>
      obtain ⟨k', c⟩ := p
      by_cases hk : k' = id
      · subst hk
        simp [enqueue_to, mapLookup]
      · simp [enqueue_to, mapLookup, hk, ih]

theorem mapLookup_foldl_enqueue_to (id : String) (msgs : List MessageType)
    (l : List (String × Chan MessageType)) :
    mapLookup id (msgs.foldl (enqueue_to id) l)
      = (mapLookup id l).map fun c => { isOpen := c.isOpen, queue := c.queue ++ msgs } := by
  induction msgs generalizing l with
  | nil =>
      cases h : mapLookup id l <;> simp [h]
  | cons m rest ih =>
      rw [List.foldl_cons, ih, mapLookup_enqueue_to_self]
      cases h : mapLookup id l <;> simp [h]

theorem fan_out_lookup_open {j : String} {c : Chan MessageType}
    (l : List (String × Chan MessageType)) (m : MessageType)
    (hl : mapLookup j l = some c) (hc : c.isOpen = true) :
    mapLookup j (fan_out_and_prune l m)
      = some { isOpen := true, queue := c.queue ++ [m] } := by
  induction l with
  | nil => simp [mapLookup] at hl
  | cons p rest ih =>
      obtain ⟨k', ch⟩ := p
      by_cases hk : k' = j
      · simp only [mapLookup, if_pos hk, Option.some.injEq] at hl
        subst hl
        simp [fan_out_and_prune, Chan.send, hc, mapLookup, hk]
      · simp only [mapLookup, if_neg hk] at hl
        cases hs : ch.send m with
        | none => simp only [fan_out_and_prune, List.filterMap_cons, hs]
                  exact ih hl
        | some ch' =>
            simp only [fan_out_and_prune, List.filterMap_cons, hs, mapLookup, if_neg hk]
            exact ih hl

theorem fan_out_lookup_none {j : String}
    (l : List (String × Chan MessageType)) (m : MessageType)
    (h : mapLookup j l = none) : mapLookup j (fan_out_and_prune l m) = none := by
  induction l with
  | nil => simp [fan_out_and_prune, mapLookup]
  | cons p rest ih =>
      obtain ⟨k', ch⟩ := p
      by_cases hk : k' = j
      · simp [mapLookup, hk] at h
      · simp only [mapLookup, if_neg hk] at h
        cases hs : ch.send m with
        | none => simp only [fan_out_and_prune, List.filterMap_cons, hs]
                  exact ih h
        | some ch' =>
            simp only [fan_out_and_prune, List.filterMap_cons, hs, mapLookup, if_neg hk]
            exact ih h

theorem fan_out_lookup_closed {j : String} {c : Chan MessageType}
    (l : List (String × Chan MessageType)) (m : MessageType)
    (hnd : (l.map Prod.fst).Nodup) (hl : mapLookup j l = some c) (hc : c.isOpen = false) :
    mapLookup j (fan_out_and_prune l m) = none := by
  induction l with
  | nil => simp [mapLookup] at hl
  | cons p rest ih =>
      obtain ⟨k', ch⟩ := p
      simp only [List.map_cons, List.nodup_cons] at hnd
      by_cases hk : k' = j
      · simp only [mapLookup, if_pos hk, Option.some.injEq] at hl
        subst hl
        simp only [fan_out_and_prune, List.filterMap_cons, Chan.send, hc]
        simp only [Bool.false_eq_true, if_false]
        exact fan_out_lookup_none rest m (mapLookup_of_not_mem_keys (hk ▸ hnd.1))
      · simp only [mapLookup, if_neg hk] at hl
        cases hs : ch.send m with
        | none => simp only [fan_out_and_prune, List.filterMap_cons, hs]
                  exact ih hnd.2 hl
        | some ch' =>
            simp only [fan_out_and_prune, List.filterMap_cons, hs, mapLookup, if_neg hk]
            exact ih hnd.2 hl

@[simp] theorem App.get_message_history_eq (app : App) :
    app.get_message_history = app.message_history := rfl

@[simp] theorem App.connected_users_add_message (app : App) (m : MessageType) :
    (app.add_message_to_history m).connected_users = app.connected_users := rfl

@[simp] theorem App.get_connected_user_add_message (app : App) (m : MessageType) (id : String) :
    (app.add_message_to_history m).get_connected_user id = app.get_connected_user id := rfl

@[simp] theorem App.message_history_add_connected (app : App) (id u : String) :
    (app.add_connected_user id u).message_history = app.message_history := rfl

/-- A whole sequence of `App::add_message_to_history` calls, oldest first. -/
def append_all (app : App) (msgs : List MessageType) : App :=
  msgs.foldl App.add_message_to_history app

theorem append_all_message_history (msgs : List MessageType) (app : App)
    (h : app.message_history.length ≤ 100) :
    (append_all app msgs).message_history
      = (app.message_history ++ msgs).drop (app.message_history.length + msgs.length - 100) := by
  induction msgs generalizing app with
  | nil =>
      simp only [append_all, List.foldl_nil, List.append_nil, List.length_nil,
        Nat.add_zero]
      rw [Nat.sub_eq_zero_of_le h, List.drop_zero]
  | cons m rest ih =>
      have hfold : append_all app (m :: rest)
          = append_all (app.add_message_to_history m) rest := rfl
      rw [hfold]
      by_cases hfull : app.message_history.length = 100
      · have h1 : 1 ≤ app.message_history.length := by omega
        have hstep : (app.add_message_to_history m).message_history
            = app.message_history.drop 1 ++ [m] := by
          simp [App.add_message_to_history, hfull]
        have hle : (app.add_message_to_history m).message_history.length ≤ 100 := by
          rw [hstep]
          simp only [List.length_append, List.length_drop, List.length_cons,
            List.length_nil]
          omega
        rw [ih _ hle, hstep]
        simp only [List.length_append, List.length_drop, List.length_cons,
          List.length_nil]
        have hidx : app.message_history.length - 1 + 1 + rest.length - 100
            = rest.length := by omega
        rw [List.append_assoc, List.singleton_append, hidx]
        rw [← List.drop_append_of_le_length h1]
        rw [List.drop_drop]
        congr 1
        omega
      · have hstep : (app.add_message_to_history m).message_history
            = app.message_history ++ [m] := by
          simp [App.add_message_to_history, hfull]
        have hle : (app.add_message_to_history m).message_history.length ≤ 100 := by
          rw [hstep]
          simp only [List.length_append, List.length_cons, List.length_nil]
          omega
        rw [ih _ hle, hstep]
        rw [List.append_assoc, List.singleton_append]
        congr 1
        simp only [List.length_append, List.length_cons, List.length_nil]
        omega

/-- C3: starting from an empty history, any sequence of appends keeps the
history length at most 100; the snapshot holds exactly the last
min(n, 100) appended envelopes, oldest first; in particular after 101
appends the first element of the snapshot is the 2nd envelope appended. -/
theorem claim_C3_history_ring (msgs : List MessageType) :
    ((append_all App.new msgs).get_message_history).length ≤ 100
    ∧ (append_all App.new msgs).get_message_history = msgs.drop (msgs.length - 100)
    ∧ ((append_all App.new msgs).get_message_history).length = min msgs.length 100
    ∧ (msgs.length = 101 →
        ((append_all App.new msgs).get_message_history).head? = msgs[1]?) := by
  have hbase : (App.new).message_history.length ≤ 100 := by simp [App.new]
  have hmain := append_all_message_history msgs App.new hbase
  have hnew : (App.new).message_history = [] := rfl
  rw [hnew] at hmain
  simp only [List.nil_append, List.length_nil, Nat.zero_add] at hmain
  have hsnap : (append_all App.new msgs).get_message_history
      = msgs.drop (msgs.length - 100) := by
    simp [hmain]
  refine ⟨?_, hsnap, ?_, ?_⟩
  · rw [hsnap, List.length_drop]; omega
  · rw [hsnap, List.length_drop]; omega
  · intro h101
    rw [hsnap, h101]
    norm_num

/-- Concrete witness for C3: 101 appended messages. -/
def demo_msgs : List MessageType :=
  (List.range 101).map fun i => MessageType.SystemMessage (toString i)

theorem claim_C3_witness :
    demo_msgs.length = 101
    ∧ ((append_all App.new demo_msgs).get_message_history).head? = demo_msgs[1]? :=
  ⟨by decide, (claim_C3_history_ring demo_msgs).2.2.2 (by decide)⟩

/-- C6: the teardown path is idempotent.  If a first run of
`handle_disconnection` (entered with the disconnect-once flag clear)
completed with result `r`, then running it again on the resulting state is
a no-op: it returns exactly `r` — the registry is not modified again and
no further message is enqueued anywhere. -/
theorem claim_C6_teardown_idempotent (client_id : String)
    (clients : List (String × Chan MessageType)) (app : App)
    (r : Bool × List (String × Chan MessageType) × App)
    (h : handle_disconnection false client_id clients app = some r) :
    handle_disconnection r.1 client_id r.2.1 r.2.2 = some r := by
  cases hg : app.get_connected_user client_id with
  | none => simp [handle_disconnection, hg] at h
  | some user_info =>
      simp only [handle_disconnection, hg, Bool.false_eq_true, if_false] at h
      obtain rfl := Option.some.inj h
      simp [handle_disconnection]

theorem claim_C6_witness :
    handle_disconnection true "c1" [] App.new = some (true, [], App.new) :=
  claim_C6_teardown_idempotent "c1" [("c1", { isOpen := true, queue := [] })]
    (App.new.add_connected_user "c1" "alice") (true, [], App.new) (by decide)

/-- A demo app whose history holds one chat message. -/
def demo_app_with_history : App :=
  App.new.add_message_to_history (MessageType.ChatMessage "x" "hi")

/-- C2 counterexample: `handle_connection_setup` — the accept-time prefix of
`handle_connection`, a path containing no authentication whatsoever — already
inserts the session into both registries (under the username "Anonymous")
and replays the message-history snapshot onto its outbound queue.  So a
session that has never authenticated is present in the registry and does
receive the history replay, contradicting the claim. -/
theorem claim_C2_counterexample :
    (handle_connection_setup "c1" [] demo_app_with_history).2.get_connected_user "c1"
        = some { username := "Anonymous", message_count := 0 }
    ∧ mapLookup "c1" (handle_connection_setup "c1" [] demo_app_with_history).1
        = some { isOpen := true, queue := [MessageType.ChatMessage "x" "hi"] } := by
  decide

/-- C2 amended: insertion of the handle into the client registry and the
replay of the message-history snapshot onto its outbound queue happen as
soon as the transport handshake completes — before and regardless of any
authentication — with the session registered under the default username
"Anonymous". -/
theorem claim_C2_amended (client_id : String)
    (clients : List (String × Chan MessageType)) (app : App) :
    mapLookup client_id (handle_connection_setup client_id clients app).1
      = some { isOpen := true, queue := app.get_message_history }
    ∧ (handle_connection_setup client_id clients app).2.get_connected_user client_id
      = some { username := "Anonymous", message_count := 0 } := by
  constructor
  · simp only [handle_connection_setup]
    rw [mapLookup_foldl_enqueue_to, mapLookup_mapInsert_self]
    simp
  · simp only [handle_connection_setup, App.add_connected_user, App.get_connected_user]
    exact mapLookup_mapInsert_self _ _ _

@[simp] theorem App.get_connected_users_add_message (app : App) (m : MessageType) :
    (app.add_message_to_history m).get_connected_users = app.get_connected_users := rfl

/-- C4: an incoming ChatMessage from a registered session is rewritten so
that its sender is the session's stored username (whatever sender the
client supplied), the rewritten message is appended to the message history
(it becomes the history's last element), and the same rewritten message is
enqueued onto the outbound queue of every registered session whose channel
is open — the sender's own included (take `j := client_id`). -/
theorem claim_C4_chat_rewrite_append_fanout
    (claimed_sender content client_id : String)
    (clients : List (String × Chan MessageType)) (app : App) (user_info : UserInfo)
    (h : app.get_connected_user client_id = some user_info) :
    handle_incoming_message (MessageType.ChatMessage claimed_sender content) client_id clients app
      = some (fan_out_and_prune clients (MessageType.ChatMessage user_info.username content),
              app.add_message_to_history (MessageType.ChatMessage user_info.username content))
    ∧ (app.add_message_to_history
        (MessageType.ChatMessage user_info.username content)).message_history.getLast?
        = some (MessageType.ChatMessage user_info.username content)
    ∧ (∀ j c, mapLookup j clients = some c → c.isOpen = true →
        mapLookup j
            (fan_out_and_prune clients (MessageType.ChatMessage user_info.username content))
          = some ⟨true, c.queue ++ [MessageType.ChatMessage user_info.username content]⟩) := by
  refine ⟨?_, ?_, ?_⟩
  · simp [handle_incoming_message, h]
  · simp only [App.add_message_to_history]
    by_cases hfull : app.message_history.length = 100 <;>
      simp [hfull, List.getLast?_concat]
  · intro j c hj hc
    exact fan_out_lookup_open clients _ hj hc

/-- Two open demo clients. -/
def demo_clients : List (String × Chan MessageType) :=
  [("a", { isOpen := true, queue := [] }), ("b", { isOpen := true, queue := [] })]

/-- Demo app with users alice and bob registered. -/
def demo_app2 : App :=
  (App.new.add_connected_user "a" "alice").add_connected_user "b" "bob"

theorem claim_C4_witness :
    handle_incoming_message (MessageType.ChatMessage "spoof" "hi") "a" demo_clients demo_app2
      = some (fan_out_and_prune demo_clients (MessageType.ChatMessage "alice" "hi"),
              demo_app2.add_message_to_history (MessageType.ChatMessage "alice" "hi"))
    ∧ mapLookup "a" (fan_out_and_prune demo_clients (MessageType.ChatMessage "alice" "hi"))
        = some { isOpen := true, queue := [MessageType.ChatMessage "alice" "hi"] } :=
  have hthm := claim_C4_chat_rewrite_append_fanout "spoof" "hi" "a" demo_clients demo_app2
    { username := "alice", message_count := 0 } (by decide)
  ⟨hthm.1, by
    have hx := hthm.2.2 "a" { isOpen := true, queue := [] } (by decide) rfl
    simpa using hx⟩

/-- C10: when a broadcast fan-out hits a session whose outbound channel is
closed, that connection id is pruned from the `clients` sender map while
its `UserInfo` entry stays in the App's connected-users map, so the two
registries disagree; a `list` command dispatched in between still reports
the dead session's username, and only the session's own teardown
(`remove_connected_user`) finally drops the `UserInfo` entry. -/
theorem claim_C10_registry_divergence
    (claimed content sender_id dead_id : String)
    (clients : List (String × Chan MessageType)) (app : App)
    (dch : Chan MessageType) (sinfo dinfo : UserInfo)
    (hnd : (clients.map Prod.fst).Nodup)
    (hand : (app.connected_users.map Prod.fst).Nodup)
    (hdc : mapLookup dead_id clients = some dch)
    (hclosed : dch.isOpen = false)
    (hs : app.get_connected_user sender_id = some sinfo) :
    app.get_connected_user dead_id = some dinfo →
    handle_incoming_message (MessageType.ChatMessage claimed content) sender_id clients app
        = some (fan_out_and_prune clients (MessageType.ChatMessage sinfo.username content),
                app.add_message_to_history (MessageType.ChatMessage sinfo.username content))
    ∧ mapLookup dead_id
        (fan_out_and_prune clients (MessageType.ChatMessage sinfo.username content)) = none
    ∧ (app.add_message_to_history
        (MessageType.ChatMessage sinfo.username content)).get_connected_user dead_id
        = some dinfo
    ∧ dinfo.username ∈ ((app.add_message_to_history
        (MessageType.ChatMessage sinfo.username content)).get_connected_users).map
          UserInfo.username
    ∧ ((app.add_message_to_history
          (MessageType.ChatMessage sinfo.username content)).remove_connected_user
            dead_id).get_connected_user dead_id = none := by
  intro hd
  refine ⟨?_, ?_, ?_, ?_, ?_⟩
  · simp [handle_incoming_message, hs]
  · exact fan_out_lookup_closed clients _ hnd hdc hclosed
  · simpa using hd
  · simp only [App.get_connected_users_add_message]
    exact List.mem_map_of_mem UserInfo.username (mapLookup_mem_values hd)
  · simp only [App.remove_connected_user, App.get_connected_user,
      App.connected_users_add_message]
    exact mapLookup_mapRemove_self_of_nodup hand

/-- Demo clients for C10: one live session, one whose channel is closed. -/
def demo_c10_clients : List (String × Chan MessageType) :=
  [("a", { isOpen := true, queue := [] }), ("d", { isOpen := false, queue := [] })]

/-- Demo app for C10: users alice and dave registered. -/
def demo_app2d : App :=
  (App.new.add_connected_user "a" "alice").add_connected_user "d" "dave"

theorem claim_C10_witness :
    mapLookup "d" (fan_out_and_prune demo_c10_clients (MessageType.ChatMessage "alice" "hi"))
        = none
    ∧ (demo_app2d.add_message_to_history
        (MessageType.ChatMessage "alice" "hi")).get_connected_user "d"
        = some { username := "dave", message_count := 0 }
    ∧ "dave" ∈ ((demo_app2d.add_message_to_history
        (MessageType.ChatMessage "alice" "hi")).get_connected_users).map UserInfo.username :=
  have hthm := claim_C10_registry_divergence "spoof" "hi" "a" "d" demo_c10_clients demo_app2d
    { isOpen := false, queue := [] } { username := "alice", message_count := 0 }
    { username := "dave", message_count := 0 }
    (by decide) (by decide) (by decide) rfl (by decide) (by decide)
  ⟨hthm.2.1, hthm.2.2.1, hthm.2.2.2.1⟩

/-- C8 counterexample: a registry miss is not treated as a silent no-op on
every path.  On a connection id absent from the registries, the teardown
path (`get_connected_user(..).unwrap()`) and the `name` command's reply
lookup (`clients.get(..).unwrap()`) both panic — embedded as `none` — rather
than completing as a no-op. -/
theorem claim_C8_counterexample :
    handle_disconnection false "ghost" [] App.new = none
    ∧ handle_command "name" ["x"] "ghost" [] App.new = none :=
  ⟨by decide, by decide⟩

/-- C8 amended: a registry miss during dispatch is a silent no-op in the
`list` and unknown-command reply paths (state returned unchanged, nothing
sent anywhere); but the teardown path's username lookup and the `name`
command's reply-channel lookup `unwrap` the missing entry and panic
instead of performing a silent no-op. -/
theorem claim_C8_amended :
    (∀ (id : String) (clients : List (String × Chan MessageType)) (app : App),
        mapLookup id clients = none →
        handle_command "list" [] id clients app = some (clients, app))
    ∧ (∀ (nm : String) (args : List String) (id : String)
          (clients : List (String × Chan MessageType)) (app : App),
        nm ≠ "name" → nm ≠ "list" → mapLookup id clients = none →
        handle_command nm args id clients app = some (clients, app))
    ∧ (∀ (id : String) (clients : List (String × Chan MessageType)) (app : App),
        app.get_connected_user id = none →
        handle_disconnection false id clients app = none)
    ∧ (∀ (v : String) (rest : List String) (id : String)
          (clients : List (String × Chan MessageType)) (app : App),
        mapLookup id clients = none →
        handle_command "name" (v :: rest) id clients app = none) := by
  refine ⟨?_, ?_, ?_, ?_⟩
  · intro id clients app h
    simp [handle_command, h]
  · intro nm args id clients app h1 h2 h
    simp [handle_command, h1, h2, h]
  · intro id clients app h
    simp [handle_disconnection, h]
  · intro v rest id clients app h
    simp [handle_command, h]

theorem claim_C8_witness :
    handle_command "list" [] "ghost" [] App.new = some ([], App.new)
    ∧ handle_command "bogus" [] "ghost" [] App.new = some ([], App.new)
    ∧ handle_disconnection false "ghost" [] App.new = none
    ∧ handle_command "name" ["x"] "ghost" [] App.new = none :=
  ⟨claim_C8_amended.1 "ghost" [] App.new rfl,
   claim_C8_amended.2.1 "bogus" [] "ghost" [] App.new (by decide) (by decide) rfl,
   claim_C8_amended.2.2.1 "ghost" [] App.new rfl,
   claim_C8_amended.2.2.2 "x" [] "ghost" [] App.new rfl⟩

/-- C9 counterexample: in the structured dispatcher an empty-string `name`
argument is accepted, not rejected.  The username is changed to the empty
string and the reply is the success message
"Your name is now set to \x27\x27" — not "Please provide a valid name." -/
theorem claim_C9_counterexample :
    handle_command "name" [""] "c1" [("c1", { isOpen := true, queue := [] })]
        (App.new.add_connected_user "c1" "alice")
      = some ([("c1", ⟨true, [MessageType.SystemMessage "Your name is now set to \x27\x27"]⟩)],
          (App.new.add_connected_user "c1" "alice").update_username "c1" "")
    ∧ ((App.new.add_connected_user "c1" "alice").update_username "c1" ""
        ).get_connected_user "c1"
      = some { username := "", message_count := 0 } :=
  ⟨by decide, by decide⟩

/-- C9 amended: the two dispatchers differ.  In the structured dispatcher
(`crates/server/src/commander.rs`) a `name` command with no argument is a
silent no-op (no reply, state unchanged), and any present argument —
the empty string included — is accepted: the username is set to it and the
reply is "Your name is now set to \x27<arg>\x27".  Only the string-based
dispatcher (`src/server/commander.rs`) implements the claimed behavior:
a name that trims to empty is rejected with "Please provide a valid name."
and the state is unchanged, while a non-empty name updates the nickname
and the `App` entry and is acknowledged. -/
theorem claim_C9_amended :
    (∀ (id : String) (clients : List (String × Chan MessageType)) (app : App),
        handle_command "name" [] id clients app = some (clients, app))
    ∧ (∀ (v : String) (rest : List String) (id : String)
          (clients : List (String × Chan MessageType)) (app : App) (c : Chan MessageType),
        mapLookup id clients = some c → c.isOpen = true →
        handle_command "name" (v :: rest) id clients app
          = some (mapInsert id
              ⟨true, c.queue ++ [MessageType.SystemMessage
                ("Your name is now set to \x27" ++ v ++ "\x27")]⟩ clients,
              app.update_username id v))
    ∧ (∀ (name_arg id : String)
          (clients : List (String × (Option String × Chan String))) (app : App),
        str_trim name_arg = "" →
        str_name_branch name_arg id clients app
          = (str_send_to_client id clients "Please provide a valid name.").map
              fun cs => (cs, app))
    ∧ (∀ (name_arg id : String)
          (clients : List (String × (Option String × Chan String))) (app : App)
          (nk : Option String) (c : Chan String),
        str_trim name_arg ≠ "" → mapLookup id clients = some (nk, c) → c.isOpen = true →
        str_name_branch name_arg id clients app
          = some (mapInsert id (some (str_trim name_arg),
                ⟨true, c.queue
                  ++ ["Your name is now set to \x27" ++ str_trim name_arg ++ "\x27"]⟩)
                (mapInsert id (some (str_trim name_arg), c) clients),
              app.add_connected_user id (str_trim name_arg))) := by
  refine ⟨?_, ?_, ?_, ?_⟩
  · intro id clients app
    simp [handle_command]
  · intro v rest id clients app c hl hopen
    simp [handle_command, hl, Chan.send, hopen]
  · intro name_arg id clients app h
    simp [str_name_branch, h]
  · intro name_arg id clients app nk c hne hl hopen
    simp [str_name_branch, hne, hl, str_send_to_client, mapLookup_mapInsert_self,
      Chan.send, hopen]

theorem claim_C9_witness :
    handle_command "name" [] "c1" [] App.new = some ([], App.new)
    ∧ handle_command "name" ["wonder"] "c1" [("c1", { isOpen := true, queue := [] })]
          (App.new.add_connected_user "c1" "alice")
        = some ([("c1",
              ⟨true, [MessageType.SystemMessage "Your name is now set to \x27wonder\x27"]⟩)],
            (App.new.add_connected_user "c1" "alice").update_username "c1" "wonder")
    ∧ (str_name_branch "   " "a" [] App.new
        = (str_send_to_client "a" [] "Please provide a valid name.").map
            fun cs => (cs, App.new))
    ∧ str_name_branch "wonder" "a" [("a", (some "alice", { isOpen := true, queue := [] }))]
          App.new
        = some (mapInsert "a" (some (str_trim "wonder"),
              ⟨true, [] ++ ["Your name is now set to \x27" ++ str_trim "wonder" ++ "\x27"]⟩)
              (mapInsert "a" (some (str_trim "wonder"), { isOpen := true, queue := [] })
                [("a", (some "alice", { isOpen := true, queue := [] }))]),
            App.new.add_connected_user "a" (str_trim "wonder")) :=
  ⟨claim_C9_amended.1 "c1" [] App.new,
   by
     have hx := claim_C9_amended.2.1 "wonder" [] "c1"
       [("c1", { isOpen := true, queue := [] })] (App.new.add_connected_user "c1" "alice")
       { isOpen := true, queue := [] } (by decide) rfl
     simpa using hx,
   claim_C9_amended.2.2.1 "   " "a" [] App.new (by decide),
   claim_C9_amended.2.2.2 "wonder" "a"
     [("a", (some "alice", { isOpen := true, queue := [] }))] App.new (some "alice")
     { isOpen := true, queue := [] } (by decide) (by decide) rfl⟩

/-- Demo clients for the /dm command: sessions a (alice) and b (bob). -/
def dm_demo_clients : List (String × (Option String × Chan String)) :=
  [("a", (some "alice", { isOpen := true, queue := [] })),
   ("b", (some "bob", { isOpen := true, queue := [] }))]

/-- C5: evaluating the /dm path of the string dispatcher.  When alice sends
"/dm bob hello", bob's queue receives "(Private message from bob): hello" —
the source interpolates `recipient_name` after "from", not the sender's
name, so the recipient sees their own name instead of the sender's (the
spec requires "(Private message from alice): hello").  The echo to the
sender and the behavior on an unknown recipient are as specified: only the
sender is notified, other sessions receive nothing. -/
theorem claim_C5_dm_from_field :
    str_handle_command "/dm bob hello" "a" dm_demo_clients App.new
      = some ([("a", (some "alice",
            { isOpen := true, queue := ["(Private message to bob): hello"] })),
          ("b", (some "bob",
            { isOpen := true, queue := ["(Private message from bob): hello"] }))],
          App.new)
    ∧ str_handle_command "/dm ghost hello" "a" dm_demo_clients App.new
      = some ([("a", (some "alice",
            { isOpen := true, queue := ["User \x27ghost\x27 not found."] })),
          ("b", (some "bob", { isOpen := true, queue := [] }))],
          App.new) :=
  ⟨by decide, by decide⟩

theorem auth_fail_spec (failures : Nat) (h : failures < 5) :
    (auth_step.auth_fail failures).failures = failures + 1
    ∧ (auth_step.auth_fail failures).replies.head?
        = some (MessageType.SystemMessage
            ("Authentication failed. " ++ toString (5 - (failures + 1))
              ++ " attempts remaining."))
    ∧ ((auth_step.auth_fail failures).closed = true ↔ failures + 1 = 5)
    ∧ (failures + 1 = 5 →
        (auth_step.auth_fail failures).replies
          = [MessageType.SystemMessage "Authentication failed. 0 attempts remaining.",
             MessageType.SystemMessage "Max login attempts reached. Connection closed."]) := by
  unfold auth_step.auth_fail
  by_cases h5 : 5 ≤ failures + 1
  · have h5' : failures + 1 = 5 := by omega
    rw [if_pos h5]
    refine ⟨rfl, rfl, by simp [h5'], fun _ => ?_⟩
    rw [h5']
    decide
  · rw [if_neg h5]
    refine ⟨rfl, rfl, by simp; omega, fun he => absurd he (by omega)⟩

/-- C1: every authentication failure in the AwaitingCredentials loop bumps
the failure count and is answered with
"Authentication failed. <5 − failures> attempts remaining."; the transport
is closed exactly when the incremented count reaches 5, in which case the
final reply is "Max login attempts reached. Connection closed."; and a
credential pair verifies via `App::authenticate_user` precisely when the
credential store maps that username to a record with that password. -/
theorem claim_C1_auth_protocol :
    (∀ (app : App) (failures : Nat) (payload : String),
        failures < 5 → verifies app payload = false →
        (auth_step app failures payload).failures = failures + 1
        ∧ (auth_step app failures payload).replies.head?
            = some (MessageType.SystemMessage
                ("Authentication failed. " ++ toString (5 - (failures + 1))
                  ++ " attempts remaining."))
        ∧ ((auth_step app failures payload).closed = true ↔ failures + 1 = 5)
        ∧ (failures + 1 = 5 →
            (auth_step app failures payload).replies
              = [MessageType.SystemMessage "Authentication failed. 0 attempts remaining.",
                 MessageType.SystemMessage "Max login attempts reached. Connection closed."]))
    ∧ (∀ (app : App) (u p : String),
        app.authenticate_user u p = true
          ↔ ∃ c, mapLookup u app.user_credentials = some c ∧ c.password = p) := by
  constructor
  · intro app failures payload hlt hv
    have hred : auth_step app failures payload = auth_step.auth_fail failures := by
      unfold auth_step
      cases hp : parse_credentials payload with
      | none => simp
      | some up =>
          obtain ⟨u, pw⟩ := up
          have hv' : app.authenticate_user u pw = false := by
            simpa [verifies, hp] using hv
          simp [hv']
    rw [hred]
    exact auth_fail_spec failures hlt
  · intro app u p
    unfold App.authenticate_user
    cases hc : mapLookup u app.user_credentials with
    | none => simp
    | some cred =>
        constructor
        · intro hdec
          exact ⟨cred, rfl, of_decide_eq_true hdec⟩
        · rintro ⟨c, hcc, hp⟩
          cases Option.some.inj hcc
          exact decide_eq_true hp

theorem claim_C1_witness :
    (auth_step App.new 0 "user1:wrong").replies.head?
        = some (MessageType.SystemMessage
            ("Authentication failed. " ++ toString (5 - (0 + 1)) ++ " attempts remaining."))
    ∧ App.new.authenticate_user "user1" "password1" = true :=
  ⟨(claim_C1_auth_protocol.1 App.new 0 "user1:wrong" (by decide) (by decide)).2.1,
   (claim_C1_auth_protocol.2 App.new "user1" "password1").mpr
     ⟨{ username := "user1", password := "password1" }, by decide, rfl⟩⟩

/-- C7 counterexample: the first keep-alive Ping is emitted immediately
when the ping task starts its loop — `tokio::time::interval` completes its
first tick at once — not 30 seconds after the session becomes Active as
the claim states. -/
theorem claim_C7_counterexample :
    ping_tick_time 0 = 0 ∧ ping_tick_time 0 ≠ ping_interval_secs := by
  decide

/-- C7 amended: the Keeper sends a zero-payload Ping at times 0, 30, 60, …
seconds — every 30 seconds with the first Ping immediate, not delayed by
one interval — and after each Ping waits up to `pong_timeout_secs = 10`
seconds for the Reader's Pong notification; a missing Pong triggers the
teardown path, which touches only that session's registrations: every
other connection id stays in the clients map and keeps its `UserInfo`. -/
theorem claim_C7_amended :
    (∀ k, ping_tick_time k = 30 * k)
    ∧ ping_tick_time 0 = 0
    ∧ (∀ k, ping_tick_time (k + 1) - ping_tick_time k = 30)
    ∧ pong_timeout_secs = 10
    ∧ (∀ (id : String) (clients : List (String × Chan MessageType)) (app : App)
          (r : Bool × List (String × Chan MessageType) × App),
        handle_disconnection false id clients app = some r →
        ∀ j, j ≠ id →
          (mapLookup j r.2.1).isSome = (mapLookup j clients).isSome
          ∧ r.2.2.get_connected_user j = app.get_connected_user j) := by
  refine ⟨fun k => rfl, rfl, ?_, rfl, ?_⟩
  · intro k
    simp only [ping_tick_time, ping_interval_secs]
    omega
  · intro id clients app r h j hj
    cases hg : app.get_connected_user id with
    | none => simp [handle_disconnection, hg] at h
    | some user_info =>
        simp only [handle_disconnection, hg, Bool.false_eq_true, if_false] at h
        obtain rfl := Option.some.inj h
        constructor
        · rw [mapLookup_broadcast_best_effort, mapLookup_mapRemove_ne hj]
          cases mapLookup j clients <;> simp
        · simp [App.remove_connected_user, App.get_connected_user,
            mapLookup_mapRemove_ne hj]

/-- The state produced by tearing down session "a" of the demo setup. -/
def demo_teardown_result : Bool × List (String × Chan MessageType) × App :=
  (true, [("b", ⟨true, [MessageType.SystemMessage "alice has disconnected."]⟩)],
    demo_app2.remove_connected_user "a")

theorem claim_C7_witness :
    (mapLookup "b" demo_teardown_result.2.1).isSome
        = (mapLookup "b" demo_clients).isSome
    ∧ demo_teardown_result.2.2.get_connected_user "b" = demo_app2.get_connected_user "b" :=
  claim_C7_amended.2.2.2.2 "a" demo_clients demo_app2 demo_teardown_result
    (by decide) "b" (by decide)

end TerminalMessenger
